import Mathlib

/-!
Verification development for the GIF processing service in `app.py`.

The service decodes an uploaded animated GIF, optionally splits it into
left/right halves, resizes and quantizes every frame, re-encodes, and
offers two post-hoc transforms on the stored artifact: a horizontal flip
and an RGB channel permutation that always recomputes from a lazily
created immutable "original" snapshot.

The embedding below models the pixel data of a frame as rows of RGBA
pixels, a decoded GIF file as its frames plus the PIL `info` metadata
fields the code reads (`duration`, `loop`, `transparency`, disposal), and
the on-disk state of one artifact as the pair current/original.  The
external PIL collaborators whose numeric output the code does not control
— LANCZOS resampling (`Image.resize`), median-cut palette quantization
(`Image.quantize`), and the palette index the quantizer assigns to each
stored color (which decides which stored pixels match the file's
transparency index) — are passed as function parameters, so every theorem
holds for any behaviour of those collaborators.
-/

namespace GifProc

/-- An RGBA pixel, as produced by PIL's convert to RGBA (app.py lines 71-72, 239). -/
structure Pixel where
  r : Nat
  g : Nat
  b : Nat
  a : Nat
deriving DecidableEq

/-- An RGB color, the per-pixel content left after convert to RGB
(app.py lines 105, 248) — the alpha channel is dropped. -/
structure RGB where
  r : Nat
  g : Nat
  b : Nat
deriving DecidableEq

/-- A frame as rows of RGBA pixels. -/
abbrev FrameRGBA := List (List Pixel)

/-- A frame as rows of RGB colors (no alpha channel), the content of a
quantized palette frame about to be written into a GIF file. -/
abbrev FrameRGB := List (List RGB)

/-- A decoded animated GIF: per-frame pixel data (fully composited, viewed
as RGBA), the per-frame `info` duration entries (`none` when the frame
carries no explicit duration), and the global `info` metadata the code
reads: `loop`, `transparency`, and the disposal mode. -/
structure GIF where
  width : Nat
  height : Nat
  frames : List FrameRGBA
  durations : List (Option Nat)
  loop : Option Nat
  transparency : Option Nat
  disposal : Option Nat
deriving DecidableEq

/-- A GIF file as written by `frames[0].save(...)`: quantized palette
frames, the per-frame durations actually stored in the file, and the
metadata fields passed through `save_params`. -/
structure SavedGif where
  frames : List FrameRGB
  durations : List Nat
  loop : Nat
  transparency : Option Nat
  disposal : Option Nat
deriving DecidableEq

/-- `image.info.get('duration', 100)` as read at app.py lines 97, 188 and
251.  At each of these sites the image has already been iterated to its
last frame by `ImageSequence.Iterator` (app.py lines 62, 71-72, 86 before
line 97; lines 183-185 before line 188; lines 238-249 before line 251),
and PIL refreshes `info` on every seek, so the read returns the last
frame's duration, defaulting to 100. -/
def infoDuration (g : GIF) : Nat :=
  (g.durations.getLast?.getD none).getD 100

/-- PIL convert from RGBA to RGB on one pixel: the alpha channel is
discarded, only the color channels remain. -/
def convertRGBpixel (p : Pixel) : RGB :=
  { r := p.r, g := p.g, b := p.b }

/-- Convert a whole RGBA frame to RGB (app.py lines 105, 248). -/
def convertRGBframe (fr : FrameRGBA) : FrameRGB :=
  fr.map (List.map convertRGBpixel)

/-- Decoding one stored palette frame back to RGBA pixels.  A GIF frame
carries no per-pixel alpha channel: a pixel decodes transparent exactly
when the file carries a transparency palette index (forwarded to `save`
at app.py lines 119-120 and 262-263) and the pixel's palette entry is
that index, and opaque (alpha 255) otherwise.  `palIdx` is the palette
index the external quantizer assigned to each stored color. -/
def renderStored (transp : Option Nat) (palIdx : RGB → Nat) (fr : FrameRGB) : FrameRGBA :=
  fr.map (List.map (fun c =>
    { r := c.r, g := c.g, b := c.b
      a := if transp = some (palIdx c) then 0 else 255 }))

/-- The per-frame processing of the upload pipeline (app.py lines 103-106):
`frame.resize((240, 240), LANCZOS)` followed by
`convert("RGB").quantize(colors=256, method=MEDIANCUT)`.  The resampler
and the quantizer are the external PIL collaborators, passed as
parameters. -/
def processFrame (resizeF : FrameRGBA → FrameRGBA) (quantizeF : FrameRGB → FrameRGB)
    (fr : FrameRGBA) : FrameRGB :=
  quantizeF (convertRGBframe (resizeF fr))

/-- `frame.crop((x0, 0, x1, height))`: keep the pixel columns in `[x0, x1)`
of every row (app.py lines 68-72). -/
def cropCols (x0 x1 : Nat) (fr : FrameRGBA) : FrameRGBA :=
  fr.map (fun row => (row.drop x0).take (x1 - x0))

/-- The split decision of `process_gif` (app.py lines 64-91):
`should_split = width == 2 * height`; when splitting, the left crop box is
`(0, 0, width // 2, height)` and the right one `(width // 2, 0, width,
height)`, applied to every frame; otherwise the frames are kept as one
sequence. -/
def splitSequences (g : GIF) : List (List FrameRGBA) :=
  if g.width = 2 * g.height then
    [g.frames.map (cropCols 0 (g.width / 2)),
     g.frames.map (cropCols (g.width / 2) g.width)]
  else
    [g.frames]

/-- Re-encoding one frame sequence in `process_gif` (app.py lines 96-122):
every frame goes through `processFrame`, and `save_params` passes one
scalar `duration` — `original_image.info.get('duration', 100)`, i.e. the
last frame's duration per `infoDuration` — which the
codec applies uniformly to every frame of the written file, plus
`loop = info.get('loop', 0)` and `transparency` when present.  No disposal
mode is passed to `save`. -/
def encodeSequence (resizeF : FrameRGBA → FrameRGBA) (quantizeF : FrameRGB → FrameRGB)
    (g : GIF) (frames : List FrameRGBA) : SavedGif :=
  { frames := frames.map (processFrame resizeF quantizeF)
    durations := List.replicate frames.length (infoDuration g)
    loop := g.loop.getD 0
    transparency := g.transparency
    disposal := none }

/-- `process_gif` (app.py lines 50-130): split decision, then per-sequence
resize, quantize and re-encode.  Returns the list of persisted artifacts
(one, or two when split). -/
def processGif (resizeF : FrameRGBA → FrameRGBA) (quantizeF : FrameRGB → FrameRGB)
    (g : GIF) : List SavedGif :=
  (splitSequences g).map (encodeSequence resizeF quantizeF g)

/-- `process_gif` as seen by its caller, decode step included (app.py
lines 55-58): when `Image.open` fails the function raises an
HTTPException with status 400; the error value is the HTTP status code.
The decode outcome of the uploaded bytes is the `decoded` argument. -/
def processGifE (resizeF : FrameRGBA → FrameRGBA) (quantizeF : FrameRGB → FrameRGB)
    (decoded : Option GIF) : Except Nat (List SavedGif) :=
  match decoded with
  | none => Except.error 400
  | some g => Except.ok (processGif resizeF quantizeF g)

/-- `file.filename.lower().endswith('.gif')` (app.py line 142). -/
def gifSuffixOk (filename : List Char) : Bool :=
  List.isSuffixOf ['.', 'g', 'i', 'f'] (filename.map Char.toLower)

/-- The `/upload` handler `upload_gif` (app.py lines 139-156): reject a
filename without the `.gif` suffix with 400; otherwise run `process_gif`
inside `try: ... except Exception as e: raise HTTPException(500, ...)`.
Python's `except Exception` also catches the `HTTPException(400)` that
`process_gif` raises on decode failure, so every failure escaping
`process_gif` — the decode failure included — is re-raised as 500. -/
def uploadGif (resizeF : FrameRGBA → FrameRGBA) (quantizeF : FrameRGB → FrameRGB)
    (filename : List Char) (decoded : Option GIF) : Except Nat (List SavedGif) :=
  if gifSuffixOk filename then
    match processGifE resizeF quantizeF decoded with
    | Except.ok r => Except.ok r
    | Except.error _ => Except.error 500
  else
    Except.error 400

/-- The `rgb_map` validation of `swap_rgb_gif` (app.py line 220):
`len(rgb_map) == 3` and every character of `rgb_map.lower()` is one of
`r`, `g`, `b`, and `set(rgb_map.lower())` has exactly 3 elements. -/
def validMap (m : List Char) : Bool :=
  (m.length == 3)
    && (m.map Char.toLower).all (fun c => c == 'r' || c == 'g' || c == 'b')
    && ((m.map Char.toLower).dedup.length == 3)

/-- `"RGB".find(c.upper())` (app.py line 236).  For a character outside
`{R,G,B}` Python's `str.find` returns `-1`, and `channels[-1]` selects the
last channel (blue, index 2); that branch is unreachable after
validation. -/
def channelIdx (c : Char) : Nat :=
  if c.toUpper = 'R' then 0
  else if c.toUpper = 'G' then 1
  else if c.toUpper = 'B' then 2
  else 2

/-- The per-pixel channel permutation of `swap_rgb_gif` (app.py lines
235-245): `channels = [r, g, b]`, `swapped = [channels[i] for i in
channel_map_indices]`, merged back with the untouched alpha channel. -/
def swapPixel (m : List Char) (p : Pixel) : Pixel :=
  let channels := [p.r, p.g, p.b]
  let idxs := m.map channelIdx
  { r := channels.getD (idxs.getD 0 2) 0
    g := channels.getD (idxs.getD 1 2) 0
    b := channels.getD (idxs.getD 2 2) 0
    a := p.a }

/-- The file written by a non-identity channel swap, as it decodes back
(app.py lines 231-266): every frame of the original is converted to RGBA,
channel-permuted, converted to RGB and quantized; `save_params` carries
one scalar duration (`img.info.get('duration', 100)` of the original,
read after iteration, hence the last frame's), the loop count, the
transparency index when present, and `disposal = 2` exactly when a
transparency index is present.  `palIdx` is the palette assignment of the
external quantizer, which decides how the written frames decode against
the forwarded transparency index. -/
def swapGif (quantizeF : FrameRGB → FrameRGB) (palIdx : RGB → Nat) (m : List Char)
    (g : GIF) : GIF :=
  { width := g.width
    height := g.height
    frames := g.frames.map (fun fr =>
      renderStored g.transparency palIdx
        (quantizeF (convertRGBframe (fr.map (List.map (swapPixel m))))))
    durations := List.replicate g.frames.length (some (infoDuration g))
    loop := some (g.loop.getD 0)
    transparency := g.transparency
    disposal := if g.transparency.isSome then some 2 else none }

/-- `frame.transpose(Image.FLIP_LEFT_RIGHT)` (app.py line 184): mirror the
pixel columns of every row. -/
def flipFrame (fr : FrameRGBA) : FrameRGBA :=
  fr.map List.reverse

/-- The file written by the `/flip` handler, as it decodes back (app.py
lines 180-202): every frame of the current file mirrored, saved with one
scalar duration (`img.info.get('duration', 100)` of the current file,
read after iteration, hence the last frame's), the loop count and the
transparency index when present; no disposal mode is passed to `save`. -/
def flipGif (g : GIF) : GIF :=
  { width := g.width
    height := g.height
    frames := g.frames.map flipFrame
    durations := List.replicate g.frames.length (some (infoDuration g))
    loop := some (g.loop.getD 0)
    transparency := g.transparency
    disposal := none }

/-- The on-disk state of one persisted artifact: the current file
`<uuid>.gif` and, when it has been created, the immutable snapshot
`<uuid>_original.gif` (app.py lines 159-169). -/
structure Store where
  current : GIF
  original : Option GIF
deriving DecidableEq

/-- `_ensure_original_exists` (app.py lines 159-169): copy the current
file to the snapshot path only when no snapshot exists yet. -/
def ensureOriginal (s : Store) : Store :=
  match s.original with
  | some _ => s
  | none => { s with original := some s.current }

/-- The error raised by the `rgb_map` validation (app.py line 221). -/
inductive SwapErr where
  | invalidMapping
deriving DecidableEq

/-- The `/swap_rgb` handler `swap_rgb_gif` on an existing artifact
(app.py lines 210-271): validate the mapping (400 on failure), ensure the
original snapshot exists, then either restore the current file from the
snapshot when the lowered mapping is exactly `rgb`, or decode the
snapshot, permute, re-encode and overwrite the current file. -/
def swapRgb (quantizeF : FrameRGB → FrameRGB) (palIdx : RGB → Nat) (m : List Char)
    (s : Store) : Except SwapErr Store :=
  if validMap m then
    let s1 := ensureOriginal s
    let orig := s1.original.getD s1.current
    if m.map Char.toLower = ['r', 'g', 'b'] then
      Except.ok { s1 with current := orig }
    else
      Except.ok { s1 with current := swapGif quantizeF palIdx m orig }
  else
    Except.error SwapErr.invalidMapping

/-- The `/flip` handler on an existing artifact (app.py lines 172-207):
read the current file, mirror every frame, overwrite in place.  The
snapshot is not touched. -/
def flipOp (s : Store) : Store :=
  { s with current := flipGif s.current }

/-- One post-hoc operation on a persisted artifact. -/
inductive Op where
  | flipO
  | swapO (m : List Char)
deriving DecidableEq

/-- Run one operation against the store; a request rejected by validation
leaves the store unchanged. -/
def runOp (quantizeF : FrameRGB → FrameRGB) (palIdx : RGB → Nat) (s : Store) (op : Op) :
    Store :=
  match op with
  | Op.flipO => flipOp s
  | Op.swapO m =>
    match swapRgb quantizeF palIdx m s with
    | Except.ok s1 => s1
    | Except.error _ => s

/-! ### Concrete sample values used by witnesses and counterexamples -/

/-- A small 2×1 single-frame GIF. -/
def gifA : GIF :=
  { width := 2
    height := 1
    frames := [[[{ r := 1, g := 2, b := 3, a := 255 }, { r := 4, g := 5, b := 6, a := 255 }]]]
    durations := [some 100]
    loop := some 0
    transparency := none
    disposal := none }

/-- A store holding `gifA` with no snapshot yet. -/
def storeA : Store :=
  { current := gifA, original := none }

/-! ### Mapping validation -/

/-- The Boolean validation of app.py line 220 accepts exactly the strings
whose lowercasing is a permutation of `rgb`. -/
theorem validMap_iff_perm (m : List Char) :
    validMap m = true ↔ List.Perm (m.map Char.toLower) ['r', 'g', 'b'] := by
  constructor
  · intro h
    simp only [validMap, Bool.and_eq_true, List.all_eq_true, beq_iff_eq,
      Bool.or_eq_true] at h
    obtain ⟨⟨hlen, hmem⟩, hdedup⟩ := h
    have hlenl : (m.map Char.toLower).length = 3 := by simpa using hlen
    have hded : (m.map Char.toLower).dedup = m.map Char.toLower :=
      (m.map Char.toLower).dedup_sublist.eq_of_length (by rw [hdedup, hlenl])
    have hnd : (m.map Char.toLower).Nodup := List.dedup_eq_self.mp hded
    have hsubset : (m.map Char.toLower) ⊆ ['r', 'g', 'b'] := by
      intro c hc
      rcases hmem c hc with (h1 | h1) | h1 <;> simp [h1]
    have hsp : List.Subperm (m.map Char.toLower) ['r', 'g', 'b'] := hnd.subperm hsubset
    exact hsp.perm_of_length_le (by simp [hlenl])
  · intro h
    have hlenl : (m.map Char.toLower).length = 3 := by simpa using h.length_eq
    have hnd : (m.map Char.toLower).Nodup := h.nodup_iff.mpr (by decide)
    have hded : (m.map Char.toLower).dedup = m.map Char.toLower :=
      List.dedup_eq_self.mpr hnd
    simp only [validMap, Bool.and_eq_true, List.all_eq_true, beq_iff_eq,
      Bool.or_eq_true]
    refine ⟨⟨by simpa using hlenl, ?_⟩, by rw [hded, hlenl]⟩
    intro c hc
    have hcm : c ∈ (['r', 'g', 'b'] : List Char) := h.subset hc
    have hcm2 : c = 'r' ∨ c = 'g' ∨ c = 'b' := by simpa using hcm
    tauto

/-- `swap_rgb_gif` reports the invalid-mapping error exactly when the
Boolean validation fails. -/
theorem swapRgb_error_iff (quantizeF : FrameRGB → FrameRGB) (palIdx : RGB → Nat)
    (m : List Char) (s : Store) :
    swapRgb quantizeF palIdx m s = Except.error SwapErr.invalidMapping ↔
      validMap m = false := by
  cases hv : validMap m with
  | false => simp [swapRgb, hv]
  | true =>
    simp only [swapRgb, hv, if_true]
    constructor
    · intro hcontra
      by_cases hid : m.map Char.toLower = ['r', 'g', 'b'] <;> simp [hid] at hcontra
    · intro hcontra
      cases hcontra

/-- C7: for every swap request on an existing artifact, the `rgb_map`
string is rejected with the 400 invalid-mapping error exactly when its
lowercasing is not a permutation of `rgb` (length 3, all three letters,
no repeats, case-insensitive); in all other cases the request is
processed. -/
theorem swapRgb_validation (quantizeF : FrameRGB → FrameRGB) (palIdx : RGB → Nat)
    (m : List Char) (s : Store) :
    swapRgb quantizeF palIdx m s = Except.error SwapErr.invalidMapping ↔
      ¬ List.Perm (m.map Char.toLower) ['r', 'g', 'b'] := by
  rw [swapRgb_error_iff, ← validMap_iff_perm]
  simp

/-- Witness for C7: the mapping `rrb` (repeated letter) is rejected with
the invalid-mapping error. -/
theorem swapRgb_validation_witness :
    swapRgb (fun fr => fr) (fun _ => 0) ['r', 'r', 'b'] storeA
      = Except.error SwapErr.invalidMapping :=
  (swapRgb_validation (fun fr => fr) (fun _ => 0) ['r', 'r', 'b'] storeA).mpr (by decide)

/-- C10: a swap request whose mapping fails validation is rejected before
the snapshot copy and before any write: the store (current file and
snapshot alike) is left exactly as it was. -/
theorem invalid_mapping_no_write (quantizeF : FrameRGB → FrameRGB) (palIdx : RGB → Nat)
    (m : List Char) (s : Store) (h : validMap m = false) :
    runOp quantizeF palIdx s (Op.swapO m) = s ∧
      swapRgb quantizeF palIdx m s = Except.error SwapErr.invalidMapping := by
  constructor <;> simp [runOp, swapRgb, h]

/-- Witness for C10: the invalid mapping `rrb` leaves the concrete store
`storeA` untouched. -/
theorem invalid_mapping_no_write_witness :
    runOp (fun fr => fr) (fun _ => 0) storeA (Op.swapO ['r', 'r', 'b']) = storeA ∧
      swapRgb (fun fr => fr) (fun _ => 0) ['r', 'r', 'b'] storeA
        = Except.error SwapErr.invalidMapping :=
  invalid_mapping_no_write (fun fr => fr) (fun _ => 0) ['r', 'r', 'b'] storeA (by decide)

/-! ### Upload error handling -/

/-- C2 (divergence): an upload whose filename does carry the `.gif`
suffix but whose bytes fail to decode is answered with status 500, not
400: the `HTTPException(400)` raised inside `process_gif` is caught by
the handler's blanket `except Exception` and re-raised as
`HTTPException(500)`. -/
theorem upload_decode_failure_returns_500 (resizeF : FrameRGBA → FrameRGBA)
    (quantizeF : FrameRGB → FrameRGB) :
    uploadGif resizeF quantizeF ['a', '.', 'g', 'i', 'f'] none = Except.error 500 := by
  rfl

/-! ### Snapshot and transform algebra -/

/-- After `_ensure_original_exists` the snapshot holds the previous
snapshot when one existed, the current file otherwise. -/
theorem ensureOriginal_original (s : Store) :
    (ensureOriginal s).original = some (s.original.getD s.current) := by
  cases h : s.original <;> simp [ensureOriginal, h]

/-- `_ensure_original_exists` never changes the current file. -/
theorem ensureOriginal_current (s : Store) :
    (ensureOriginal s).current = s.current := by
  cases h : s.original <;> simp [ensureOriginal, h]

/-- `_ensure_original_exists` is a no-op once the snapshot exists. -/
theorem ensureOriginal_of_some (s : Store) (o : GIF) (h : s.original = some o) :
    ensureOriginal s = s := by
  simp [ensureOriginal, h]

/-- C4: channel swap always decodes from the original snapshot, never
from a previously swapped state: for every valid non-identity mapping,
running the swap twice in a row leaves the store — stored file included —
exactly as running it once does. -/
theorem swapRgb_noncompounding (quantizeF : FrameRGB → FrameRGB) (palIdx : RGB → Nat)
    (m : List Char) (s : Store) (hv : validMap m = true)
    (hid : m.map Char.toLower ≠ ['r', 'g', 'b']) :
    (swapRgb quantizeF palIdx m s).bind (swapRgb quantizeF palIdx m)
      = swapRgb quantizeF palIdx m s := by
  cases ho : s.original with
  | none => simp [swapRgb, hv, hid, ensureOriginal, ho, Except.bind]
  | some o => simp [swapRgb, hv, hid, ensureOriginal, ho, Except.bind]

/-- Witness for C4: swapping `storeA` with `gbr` twice equals swapping it
once. -/
theorem swapRgb_noncompounding_witness :
    (swapRgb (fun fr => fr) (fun _ => 0) ['g', 'b', 'r'] storeA).bind
        (swapRgb (fun fr => fr) (fun _ => 0) ['g', 'b', 'r'])
      = swapRgb (fun fr => fr) (fun _ => 0) ['g', 'b', 'r'] storeA :=
  swapRgb_noncompounding (fun fr => fr) (fun _ => 0) ['g', 'b', 'r'] storeA
    (by decide) (by decide)

/-- C5: swapping with `gbr` and then with the identity mapping `rgb`
restores the current file from the original snapshot: the resulting store
holds exactly the content the snapshot had when it was taken (the current
file at the first swap when no snapshot existed yet). -/
theorem swapRgb_identity_reverts (quantizeF : FrameRGB → FrameRGB) (palIdx : RGB → Nat)
    (s : Store) :
    (swapRgb quantizeF palIdx ['g', 'b', 'r'] s).bind (swapRgb quantizeF palIdx ['r', 'g', 'b'])
      = Except.ok { current := s.original.getD s.current,
                    original := some (s.original.getD s.current) } := by
  have h1 : validMap ['g', 'b', 'r'] = true := by decide
  have h2 : validMap ['r', 'g', 'b'] = true := by decide
  have h3 : (['g', 'b', 'r'].map Char.toLower) = ['g', 'b', 'r'] := by decide
  have h4 : (['r', 'g', 'b'].map Char.toLower) = ['r', 'g', 'b'] := by decide
  have h5 : (['g', 'b', 'r'] : List Char) ≠ ['r', 'g', 'b'] := by decide
  cases ho : s.original with
  | none => simp [swapRgb, h1, h2, h3, h4, h5, ensureOriginal, ho, Except.bind]
  | some o => simp [swapRgb, h1, h2, h3, h4, h5, ensureOriginal, ho, Except.bind]

/-- C8: flipping twice in succession restores every frame of the stored
file pixel-for-pixel: the flip recomputes from the current on-disk state
and mirroring the pixel columns is an involution. -/
theorem flip_flip_frames (s : Store) :
    (flipOp (flipOp s)).current.frames = s.current.frames := by
  simp [flipOp, flipGif, flipFrame, List.map_map, Function.comp_def]

/-- Every single operation leaves an existing snapshot untouched. -/
theorem runOp_preserves_original (quantizeF : FrameRGB → FrameRGB) (palIdx : RGB → Nat)
    (op : Op) (s : Store) (o : GIF) (h : s.original = some o) :
    (runOp quantizeF palIdx s op).original = some o := by
  cases op with
  | flipO => simpa [runOp, flipOp] using h
  | swapO m =>
    cases hv : validMap m with
    | false => simpa [runOp, swapRgb, hv] using h
    | true =>
      by_cases hid : m.map Char.toLower = ['r', 'g', 'b'] <;>
        simp [runOp, swapRgb, hv, hid, ensureOriginal, h]

/-- C9: once the original snapshot exists, no sequence of subsequent
operations — flips, channel swaps with any mapping (repeated snapshot
creation included) — ever overwrites it. -/
theorem original_never_overwritten (quantizeF : FrameRGB → FrameRGB) (palIdx : RGB → Nat)
    (ops : List Op) (s : Store) (o : GIF) (h : s.original = some o) :
    (ops.foldl (runOp quantizeF palIdx) s).original = some o := by
  induction ops generalizing s with
  | nil => simpa using h
  | cons op rest ih =>
    exact ih (runOp quantizeF palIdx s op)
      (runOp_preserves_original quantizeF palIdx op s o h)

/-- A store whose snapshot `gifA` already exists while the current file
has been flipped. -/
def storeB : Store :=
  { current := flipGif gifA, original := some gifA }

/-- Witness for C9: a flip, a valid swap, an invalid swap and an identity
swap in sequence leave the snapshot of `storeB` intact. -/
theorem original_never_overwritten_witness :
    (([Op.flipO, Op.swapO ['g', 'b', 'r'], Op.swapO ['r', 'r', 'b'],
        Op.swapO ['r', 'g', 'b']]).foldl (runOp (fun fr => fr) (fun _ => 0)) storeB).original
      = some gifA :=
  original_never_overwritten (fun fr => fr) (fun _ => 0) _ storeB gifA rfl

/-! ### Split decision -/

/-- C6: the upload produces exactly two artifacts precisely when the
width equals exactly twice the height; any other ratio produces exactly
one unsplit artifact; and when the split happens, each of the two frame
sequences holds the left respectively right crop, every row of which has
exactly half the original width. -/
theorem split_iff_exact_ratio (resizeF : FrameRGBA → FrameRGBA)
    (quantizeF : FrameRGB → FrameRGB) (g : GIF)
    (hrows : ∀ fr ∈ g.frames, ∀ row ∈ fr, row.length = g.width) :
    ((processGif resizeF quantizeF g).length = 2 ↔ g.width = 2 * g.height) ∧
    (g.width ≠ 2 * g.height → (processGif resizeF quantizeF g).length = 1) ∧
    (g.width = 2 * g.height →
      splitSequences g = [g.frames.map (cropCols 0 (g.width / 2)),
                          g.frames.map (cropCols (g.width / 2) g.width)] ∧
      ∀ seq ∈ splitSequences g, ∀ fr ∈ seq, ∀ row ∈ fr, row.length = g.width / 2) := by
  by_cases hw : g.width = 2 * g.height
  · refine ⟨by simp [processGif, splitSequences, hw], fun h => absurd hw h, fun _ => ?_⟩
    refine ⟨by rw [splitSequences, if_pos hw], ?_⟩
    intro seq hseq fr hfr row hrow
    rw [splitSequences, if_pos hw] at hseq
    simp only [List.mem_cons, List.not_mem_nil, or_false] at hseq
    rcases hseq with hseq | hseq <;> subst hseq <;>
      · simp only [List.mem_map] at hfr
        obtain ⟨fr0, hfr0, rfl⟩ := hfr
        simp only [cropCols, List.mem_map] at hrow
        obtain ⟨row0, hrow0, rfl⟩ := hrow
        have hlen0 := hrows fr0 hfr0 row0 hrow0
        simp only [List.length_take, List.length_drop, hlen0]
        omega
  · exact ⟨by simp [processGif, splitSequences, hw], fun _ => by
      simp [processGif, splitSequences, hw], fun h => absurd h hw⟩

/-- A 4×2 single-frame GIF with an exact 2:1 width:height ratio. -/
def gifW : GIF :=
  { width := 4
    height := 2
    frames := [[[⟨0, 0, 0, 255⟩, ⟨1, 1, 1, 255⟩, ⟨2, 2, 2, 255⟩, ⟨3, 3, 3, 255⟩],
                [⟨4, 4, 4, 255⟩, ⟨5, 5, 5, 255⟩, ⟨6, 6, 6, 255⟩, ⟨7, 7, 7, 255⟩]]]
    durations := [some 100]
    loop := some 0
    transparency := none
    disposal := none }

/-- Witness for C6: the 4×2 sample splits into exactly two artifacts. -/
theorem split_iff_exact_ratio_witness :
    (processGif (fun fr => fr) (fun fr => fr) gifW).length = 2 :=
  ((split_iff_exact_ratio (fun fr => fr) (fun fr => fr) gifW (by decide)).1).mpr (by decide)

/-! ### Metadata carried by the re-encoded upload artifacts -/

/-- C1 (amended): every artifact written by the upload pipeline carries a
single duration — the one `info` duration read after iteration, i.e. the
source's last frame's duration (default 100 ms) — replicated over all its
frames rather than the per-frame duration list, reuses the source's loop
count and transparency index, and carries no disposal mode. -/
theorem upload_metadata (resizeF : FrameRGBA → FrameRGBA)
    (quantizeF : FrameRGB → FrameRGB) (g : GIF) (art : SavedGif)
    (hart : art ∈ processGif resizeF quantizeF g) :
    art.durations = List.replicate art.frames.length (infoDuration g) ∧
    art.loop = g.loop.getD 0 ∧
    art.transparency = g.transparency ∧
    art.disposal = none := by
  simp only [processGif, List.mem_map] at hart
  obtain ⟨seq, hseq, rfl⟩ := hart
  simp [encodeSequence]

/-- A two-frame GIF with distinct per-frame durations and a disposal
mode. -/
def gifV : GIF :=
  { width := 1
    height := 1
    frames := [[[⟨1, 2, 3, 255⟩]], [[⟨4, 5, 6, 255⟩]]]
    durations := [some 100, some 200]
    loop := some 0
    transparency := none
    disposal := some 1 }

/-- Counterexample for C1: the source decodes with the per-frame duration
list `[100, 200]` and disposal mode 1, but the re-encoded artifact stores
the duration list `[200, 200]` — the last frame's 200 ms, read from
`info` after iteration, replicated over both frames, so the first frame's
timing is lost — and no disposal mode. -/
theorem upload_metadata_counterexample :
    (processGif (fun fr => fr) (fun fr => fr) gifV).map SavedGif.durations = [[200, 200]] ∧
    (processGif (fun fr => fr) (fun fr => fr) gifV).map SavedGif.durations ≠ [[100, 200]] ∧
    (processGif (fun fr => fr) (fun fr => fr) gifV).map SavedGif.disposal = [none] ∧
    gifV.disposal = some 1 := by
  refine ⟨by decide, by decide, by decide, rfl⟩

/-- The single artifact the upload pipeline produces from `gifV`. -/
def artV : SavedGif :=
  encodeSequence (fun fr => fr) (fun fr => fr) gifV gifV.frames

/-- Witness for C1 (amended): the artifact produced from `gifV` carries
the replicated frame-0 duration, the source loop count and transparency
index, and no disposal mode. -/
theorem upload_metadata_witness :
    artV.durations = List.replicate artV.frames.length (infoDuration gifV) ∧
    artV.loop = gifV.loop.getD 0 ∧
    artV.transparency = gifV.transparency ∧
    artV.disposal = none :=
  upload_metadata (fun fr => fr) (fun fr => fr) gifV artV (by decide)

/-! ### Alpha channel in the upload pipeline -/

/-- A 1×1 frame holding one fully transparent pixel. -/
def frC3 : FrameRGBA := [[⟨5, 6, 7, 0⟩]]

/-- The LANCZOS resampler instantiated at `frC3`: resampling a
constant-color frame to the 240×240 canvas yields that constant color at
every target pixel (the filter is a normalized weighted average), the
alpha channel included. -/
def resize240 : FrameRGBA → FrameRGBA :=
  fun _ => List.replicate 240 (List.replicate 240 ⟨5, 6, 7, 0⟩)

/-- A 1×1 single-frame GIF whose only pixel is fully transparent and
which carries no transparency palette index. -/
def gifC3 : GIF :=
  { width := 1
    height := 1
    frames := [frC3]
    durations := [some 100]
    loop := some 0
    transparency := none
    disposal := none }

/-- The single artifact the upload pipeline produces from `gifC3`. -/
def artC3 : SavedGif :=
  encodeSequence resize240 (fun fr => fr) gifC3 gifC3.frames

/-- C3 (amended): the upload pipeline converts every resized frame to RGB
and quantizes it before saving, discarding the per-pixel alpha channel;
the stored frame carries at most the single transparency palette index
forwarded from the source, so for a source without a transparency index
every pixel of every stored output frame decodes opaque (alpha 255)
whatever the resampler, the quantizer and its palette assignment do,
instead of keeping the source frame's per-pixel alpha. -/
theorem stored_alpha_opaque (resizeF : FrameRGBA → FrameRGBA)
    (quantizeF : FrameRGB → FrameRGB) (palIdx : RGB → Nat) (g : GIF)
    (ht : g.transparency = none) (art : SavedGif)
    (hart : art ∈ processGif resizeF quantizeF g) :
    ∀ fr ∈ art.frames, ∀ row ∈ renderStored art.transparency palIdx fr,
      ∀ p ∈ row, p.a = 255 := by
  simp only [processGif, List.mem_map] at hart
  obtain ⟨seq, hseq, rfl⟩ := hart
  intro fr hfr row hrow p hp
  simp only [encodeSequence] at hrow
  rw [ht] at hrow
  simp only [renderStored, List.mem_map] at hrow
  obtain ⟨row0, _, rfl⟩ := hrow
  simp only [List.mem_map] at hp
  obtain ⟨c, _, rfl⟩ := hp
  simp

set_option maxRecDepth 4000 in
/-- Counterexample for C3: the source pixel of `gifC3` has alpha 0, yet
the artifact the upload pipeline stores for it decodes its 240×240 frame
with alpha 255 at every pixel — the per-pixel alpha channel is not
preserved. -/
theorem stored_alpha_counterexample :
    (processGif resize240 (fun fr => fr) gifC3).map
        (fun art => art.frames.map (renderStored art.transparency (fun _ => 0)))
      = [[List.replicate 240 (List.replicate 240 { r := 5, g := 6, b := 7, a := 255 })]] ∧
    gifC3.frames = [[[{ r := 5, g := 6, b := 7, a := 0 }]]] ∧ (255 : Nat) ≠ 0 := by
  refine ⟨?_, rfl, by decide⟩
  simp [processGif, splitSequences, gifC3, encodeSequence, processFrame, resize240,
    convertRGBframe, convertRGBpixel, renderStored, List.map_replicate]

set_option maxRecDepth 4000 in
/-- Witness for C3 (amended): a concrete pixel of the stored frame the
pipeline builds from `gifC3` decodes opaque. -/
theorem stored_alpha_opaque_witness :
    ({ r := 5, g := 6, b := 7, a := 255 } : Pixel).a = 255 :=
  stored_alpha_opaque resize240 (fun fr => fr) (fun _ => 0) gifC3 rfl artC3
    (by simp [processGif, splitSequences, gifC3, artC3])
    (processFrame resize240 (fun fr => fr) frC3)
    (by simp [artC3, encodeSequence, gifC3])
    (List.replicate 240 { r := 5, g := 6, b := 7, a := 255 })
    (by simp [artC3, encodeSequence, gifC3, renderStored, processFrame, resize240,
          convertRGBframe, convertRGBpixel, List.map_replicate, List.mem_replicate])
    { r := 5, g := 6, b := 7, a := 255 }
    (by simp [List.mem_replicate])

end GifProc
